import Mathlib

/-!
Verification of the audioProcess repository's proxy management,
caption extraction, transcription, pipeline orchestration, object
naming and progress reporting logic, shallowly embedded in Lean.

The process environment is modelled as a partial map from variable
names to values.  Python's `os.environ` mutations become functional
updates on this map.
-/

namespace AudioProcess

/-- A process environment: variable name to optional value. -/
abbrev Env := String → Option String

/-- `os.environ[k] = v` as a functional update. -/
def setVar (e : Env) (k v : String) : Env :=
  fun k' => if k' = k then some v else e k'

/-- `del os.environ[k]` (identity when the key is absent; the Python code
only deletes keys it has checked to be present, so the two agree). -/
def delVar (e : Env) (k : String) : Env :=
  fun k' => if k' = k then none else e k'

/-- Delete each variable of a list in order. -/
def delVars (ks : List String) (e : Env) : Env :=
  ks.foldl (fun acc k => delVar acc k) e

/-- Apply a saved snapshot: `for var, value in snap: os.environ[var] = value`. -/
def applyAll (ps : List (String × String)) (e : Env) : Env :=
  ps.foldl (fun acc p => setVar acc p.1 p.2) e

/-- Capture the variables of `ks` that are present in `e`, in order:
`for var in ks: if var in os.environ: snap[var] = os.environ[var]`. -/
def snapshotOf (ks : List String) (e : Env) : List (String × String) :=
  ks.filterMap (fun k => (e k).map (fun v => (k, v)))

/-- Python `str.lower`, restricted to the ASCII names used here. -/
def pyLower (s : String) : String :=
  String.mk (s.data.map Char.toLower)

/-- The eight proxy variables tracked by `no_proxy_context` and
`disable_proxies` in `audioprocess/utils/proxy_manager.py`. -/
def proxyVarsScope : List String :=
  ["HTTP_PROXY", "http_proxy", "HTTPS_PROXY", "https_proxy",
   "ALL_PROXY", "all_proxy", "NO_PROXY", "no_proxy"]

/-- The eight variables deleted by `disable_all_proxies` (note `FTP_PROXY`
and `ftp_proxy` in place of `NO_PROXY`/`no_proxy`). -/
def proxyVarsDisableAll : List String :=
  ["HTTP_PROXY", "http_proxy", "HTTPS_PROXY", "https_proxy",
   "ALL_PROXY", "all_proxy", "FTP_PROXY", "ftp_proxy"]

/-- `proxy_manager.disable_all_proxies`: delete the eight variables of
`proxyVarsDisableAll`, then set `NO_PROXY` and `no_proxy` to `*`. -/
def disable_all_proxies (e : Env) : Env :=
  setVar (setVar (delVars proxyVarsDisableAll e) "NO_PROXY" "*") "no_proxy" "*"

/-- `proxy_manager.disable_proxies`: snapshot the eight tracked variables,
delete those whose lowercase name is not `no_proxy`, set both `NO_PROXY`
and `no_proxy` to `*`; returns the snapshot together with the new
environment. -/
def disable_proxies (e : Env) : List (String × String) × Env :=
  let snap := snapshotOf proxyVarsScope e
  let e1 := proxyVarsScope.foldl
    (fun acc v => if pyLower v ≠ "no_proxy" then delVar acc v else acc) e
  (snap, setVar (setVar e1 "NO_PROXY" "*") "no_proxy" "*")

/-- `proxy_manager.restore_proxies`: an empty snapshot returns at once;
otherwise `NO_PROXY` and `no_proxy` are deleted and the snapshot is
reapplied. -/
def restore_proxies (snap : List (String × String)) (e : Env) : Env :=
  if snap.isEmpty then e
  else applyAll snap (delVar (delVar e "NO_PROXY") "no_proxy")

/-- `proxy_manager.no_proxy_context` run against an arbitrary wrapped
computation `body` (which may mutate the environment in any way; a body
that raises still runs the `finally` block, so it is modelled the same
way): snapshot the eight tracked variables, run `disable_all_proxies`,
run the body, then in `finally` delete the eight tracked variables and
reapply the snapshot. -/
def no_proxy_context (body : Env → Env) (e : Env) : Env :=
  let snap := snapshotOf proxyVarsScope e
  let e1 := body (disable_all_proxies e)
  applyAll snap (delVars proxyVarsScope e1)

theorem delVars_apply (ks : List String) (e : Env) (k : String) :
    delVars ks e k = if k ∈ ks then none else e k := by
  induction ks generalizing e with
  | nil => simp [delVars]
  | cons a ks ih =>
    simp only [delVars, List.foldl_cons] at *
    rw [ih]
    by_cases hak : k = a
    · subst hak
      simp [delVar]
    · by_cases hks : k ∈ ks <;> simp [delVar, hak, hks, List.mem_cons]

theorem applyAll_cons (p : String × String) (ps : List (String × String))
    (e : Env) : applyAll (p :: ps) e = applyAll ps (setVar e p.1 p.2) := rfl

theorem applyAll_apply_notMem (ps : List (String × String)) (e : Env)
    (k : String) (h : ∀ p ∈ ps, p.1 ≠ k) : applyAll ps e k = e k := by
  induction ps generalizing e with
  | nil => simp [applyAll]
  | cons p ps ih =>
    rw [applyAll_cons, ih _ (fun q hq => h q (List.mem_cons_of_mem _ hq))]
    have hp : p.1 ≠ k := h p (List.mem_cons_self _ _)
    simp only [setVar]
    rw [if_neg (fun hh => hp hh.symm)]

theorem applyAll_apply_mem (ps : List (String × String)) (e : Env)
    (k v : String) (hnd : (ps.map Prod.fst).Nodup) (h : (k, v) ∈ ps) :
    applyAll ps e k = some v := by
  induction ps generalizing e with
  | nil => simp at h
  | cons p ps ih =>
    rw [applyAll_cons]
    rcases List.mem_cons.mp h with h1 | h1
    · subst h1
      have hnotin : ∀ q ∈ ps, q.1 ≠ k := by
        intro q hq
        have : k ∉ ps.map Prod.fst := by
          simpa using (List.nodup_cons.mp hnd).1
        intro hqk
        exact this (hqk ▸ List.mem_map_of_mem Prod.fst hq)
      rw [applyAll_apply_notMem ps _ k hnotin]
      simp [setVar]
    · exact ih _ (List.nodup_cons.mp hnd).2 h1

theorem snapshotOf_mem {ks : List String} {e : Env} {k v : String} :
    (k, v) ∈ snapshotOf ks e ↔ k ∈ ks ∧ e k = some v := by
  simp only [snapshotOf, List.mem_filterMap, Option.map_eq_some']
  constructor
  · rintro ⟨a, ha, w, hw, h2⟩
    obtain ⟨rfl, rfl⟩ := Prod.mk.injEq .. ▸ h2
    exact ⟨ha, hw⟩
  · rintro ⟨hk, hv⟩
    exact ⟨k, hk, v, hv, rfl⟩

theorem snapshotOf_fst_sublist (ks : List String) (e : Env) :
    ((snapshotOf ks e).map Prod.fst).Sublist ks := by
  induction ks with
  | nil => simp [snapshotOf]
  | cons a ks ih =>
    simp only [snapshotOf, List.filterMap_cons] at *
    cases h : e a with
    | none => simp only [Option.map_none']; exact ih.cons a
    | some v => simp only [Option.map_some']; exact ih.cons₂ a

theorem snapshotOf_fst_nodup (e : Env) :
    ((snapshotOf proxyVarsScope e).map Prod.fst).Nodup :=
  (snapshotOf_fst_sublist proxyVarsScope e).nodup (by decide)

theorem snapshot_notMem_of_none {e : Env} {k : String} (h : e k = none) :
    ∀ p ∈ snapshotOf proxyVarsScope e, p.1 ≠ k := by
  rintro ⟨a, w⟩ hp rfl
  have := snapshotOf_mem.mp hp
  rw [this.2] at h
  cases h

theorem disable_proxies_snd_apply (e : Env) :
    ∀ k ∈ proxyVarsScope,
      (disable_proxies e).2 k =
        if k = "NO_PROXY" ∨ k = "no_proxy" then some "*" else none := by
  intro k hk
  fin_cases hk <;> rfl

/-- Claim C1 (amended): `no_proxy_context` restores exactly the eight
tracked proxy variables (`HTTP_PROXY`, `http_proxy`, `HTTPS_PROXY`,
`https_proxy`, `ALL_PROXY`, `all_proxy`, `NO_PROXY`, `no_proxy`) to their
entry values for every entry environment and every wrapped computation;
and the `disable_proxies`/`restore_proxies` pair restores those eight
variables to their entry values provided at least one of them was present
at entry and the wrapped work does not itself change the tracked
variables.  Variables outside the tracked list (notably `FTP_PROXY` and
`ftp_proxy`, deleted inside `no_proxy_context` by `disable_all_proxies`)
are not restored, and with no tracked variable present at entry the pair
leaks `NO_PROXY='*'` and `no_proxy='*'`. -/
theorem C1_proxy_scope_restores_tracked :
    (∀ (e : Env) (body : Env → Env) (k : String), k ∈ proxyVarsScope →
       no_proxy_context body e k = e k) ∧
    (∀ e : Env, snapshotOf proxyVarsScope e ≠ [] →
       ∀ body : Env → Env,
         (∀ k ∈ proxyVarsScope, body (disable_proxies e).2 k = (disable_proxies e).2 k) →
         ∀ k ∈ proxyVarsScope,
           restore_proxies (disable_proxies e).1 (body (disable_proxies e).2) k = e k) := by
  constructor
  · intro e body k hk
    unfold no_proxy_context
    cases hek : e k with
    | some v =>
      exact applyAll_apply_mem _ _ _ _ (snapshotOf_fst_nodup e)
        (snapshotOf_mem.mpr ⟨hk, hek⟩)
    | none =>
      rw [applyAll_apply_notMem _ _ _ (snapshot_notMem_of_none hek),
        delVars_apply]
      simp [hk, hek]
  · intro e hsnap body hbody k hk
    have hfst : (disable_proxies e).1 = snapshotOf proxyVarsScope e := rfl
    unfold restore_proxies
    rw [hfst, if_neg (by simpa [List.isEmpty_iff] using hsnap)]
    cases hek : e k with
    | some v =>
      exact applyAll_apply_mem _ _ _ _ (snapshotOf_fst_nodup e)
        (snapshotOf_mem.mpr ⟨hk, hek⟩)
    | none =>
      rw [applyAll_apply_notMem _ _ _ (snapshot_notMem_of_none hek)]
      simp only [delVar]
      rw [hbody k hk, disable_proxies_snd_apply e k hk]
      split_ifs <;> simp_all

/-- An environment carrying only an FTP proxy. -/
def envFtp : Env := fun k => if k = "FTP_PROXY" then some "http://127.0.0.1:7890" else none

/-- The empty environment. -/
def envEmpty : Env := fun _ => none

/-- An environment carrying only an HTTP proxy. -/
def envHttp : Env := fun k => if k = "HTTP_PROXY" then some "http://127.0.0.1:7890" else none

/-- Claim C1 counterexample: entering and leaving `no_proxy_context` (with
an identity body, i.e. a wrapped computation that does nothing) loses the
FTP_PROXY value present at entry, because `disable_all_proxies` deletes it
but the snapshot never recorded it; and running the
`disable_proxies`/`restore_proxies` pair in an environment with no proxy
variables at entry leaves `NO_PROXY='*'` set afterwards, because
`restore_proxies` returns early on an empty snapshot. -/
theorem C1_counterexample_keys_not_restored :
    (no_proxy_context id envFtp "FTP_PROXY" = none ∧
       envFtp "FTP_PROXY" = some "http://127.0.0.1:7890") ∧
    (restore_proxies (disable_proxies envEmpty).1 (disable_proxies envEmpty).2 "NO_PROXY"
         = some "*" ∧
       envEmpty "NO_PROXY" = none) :=
  ⟨⟨rfl, rfl⟩, ⟨rfl, rfl⟩⟩

/-- Witness for C1 (amended) at a concrete environment and body. -/
theorem C1_witness_http_proxy_restored :
    no_proxy_context id envHttp "HTTP_PROXY" = envHttp "HTTP_PROXY" ∧
    restore_proxies (disable_proxies envHttp).1 (disable_proxies envHttp).2 "HTTP_PROXY"
      = envHttp "HTTP_PROXY" := by
  constructor
  · exact C1_proxy_scope_restores_tracked.1 envHttp id "HTTP_PROXY" (by decide)
  · exact C1_proxy_scope_restores_tracked.2 envHttp (by decide) id
      (fun k _ => rfl) "HTTP_PROXY" (by decide)

/-! ## Python string primitives used by the caption path -/

/-- Python truthiness of `.get(...)` results of string type: `None` and
the empty string are falsy. -/
def optTruthy : Option String → Bool
  | none => false
  | some s => !(s == "")

/-- Python whitespace, as stripped by `str.strip()` (ASCII range). -/
def pyIsSpace (c : Char) : Bool :=
  c == ' ' || c == '\t' || c == '\n' || c == '\r' ||
    c == Char.ofNat 11 || c == Char.ofNat 12

/-- `str.strip()` on a character list. -/
def stripChars (l : List Char) : List Char :=
  ((l.dropWhile pyIsSpace).reverse.dropWhile pyIsSpace).reverse

/-- `str.strip()`. -/
def pyStrip (s : String) : String := String.mk (stripChars s.data)

/-- `str.isdigit()` (ASCII digits; the caption timestamps this guards are
ASCII). Empty strings are not digits. -/
def pyIsDigitStr (l : List Char) : Bool := !l.isEmpty && l.all (·.isDigit)

/-- `str.split('\n')`. -/
def splitNl : List Char → List (List Char)
  | [] => [[]]
  | c :: rest =>
    let r := splitNl rest
    if c = '\n' then [] :: r
    else
      match r with
      | [] => [[c]]
      | l :: ls => (c :: l) :: ls

/-- Does the second list start with the first one? -/
def startsList : List Char → List Char → Bool
  | [], _ => true
  | _ :: _, [] => false
  | p :: ps, c :: cs => p == c && startsList ps cs

/-- Python's substring operator `pat in s`. -/
def containsSub (pat : List Char) : List Char → Bool
  | [] => pat.isEmpty
  | c :: cs => startsList pat (c :: cs) || containsSub pat cs

/-! ## Caption extraction (`audioprocess/core/subtitle_extractor.py`) -/

/-- One caption track entry as yt-dlp returns it: a dict with optional
`ext` and `url` keys (a missing or null value is modelled as `none`). -/
structure SubFormat where
  ext : Option String
  url : Option String
deriving DecidableEq

/-- The part of the yt-dlp video info the extractor reads: `subtitles`
and `automatic_captions`, each an ordered language-to-tracks mapping
(Python dicts preserve insertion order, so association lists). -/
structure SubInfo where
  subtitles : List (String × List SubFormat)
  automatic_captions : List (String × List SubFormat)
deriving DecidableEq

/-- Modelled from the spec: `SUPPORTED_LANGUAGES` lives in
`audioprocess/config/settings.py`, which is absent from the sources; the
spec gives the ordered caption-language preference list as
`[zh-Hans, zh-CN, zh, en]` (Chinese first, then English, matching the
source comment on the setting's use). -/
def SUPPORTED_LANGUAGES : List String := ["zh-Hans", "zh-CN", "zh", "en"]

/-- The fixed caption format preference of `_find_best_subtitle`. -/
def preferredFormats : List String := ["vtt", "ttml", "srv3", "srv2", "srv1", "json3"]

/-- `subtitles_dict[lang]`, with `[]` when the language is absent (the
code always guards membership, so the two readings agree). -/
def lookupTracks (d : List (String × List SubFormat)) (lang : String) : List SubFormat :=
  match d.find? (fun p => p.1 == lang) with
  | some p => p.2
  | none => []

/-- The dict `_find_best_subtitle` returns. -/
structure BestSubtitle where
  url : String
  language : String
  fmt : String
deriving DecidableEq

/-- The `if not subtitle_url:` fallback of `_find_best_subtitle`: take the
first offered track if it has a url. -/
def fallbackFormat (formats : List SubFormat) (lang : String) : Option BestSubtitle :=
  match formats with
  | [] => none
  | s0 :: _ =>
    match s0.url with
    | some u => some { url := u, language := lang, fmt := s0.ext.getD "unknown" }
    | none => none

/-- The dict `_find_best_subtitle` examines:
`info.get('subtitles', {}) or info.get('automatic_captions', {})`. -/
def consideredDict (info : SubInfo) : List (String × List SubFormat) :=
  if info.subtitles.isEmpty then info.automatic_captions else info.subtitles

/-- The language-selection loop of `_find_best_subtitle`: the first
preferred language with a non-empty track list, else the dict's first
language (passed in as `first`). -/
def selectLanguage (d : List (String × List SubFormat)) (first : String) : String :=
  match SUPPORTED_LANGUAGES.find? (fun lang => !(lookupTracks d lang).isEmpty) with
  | some l => l
  | none => first

/-- The format-selection loops of `_find_best_subtitle`: the first
preferred format some track offers; if the track found that way has a
falsy url, or no preferred format is offered, fall back to the first
track. -/
def chooseFromFormats (formats : List SubFormat) (selLang : String) :
    Option BestSubtitle :=
  match preferredFormats.findSome?
      (fun fmt => (formats.find? (fun s => s.ext == some fmt)).map
        (fun s => (fmt, s.url))) with
  | some (fmt, u) =>
    if optTruthy u then some { url := u.getD "", language := selLang, fmt := fmt }
    else fallbackFormat formats selLang
  | none => fallbackFormat formats selLang

/-- `SubtitleExtractor._find_best_subtitle`. -/
def pyFindBestSubtitle (info : SubInfo) : Option BestSubtitle :=
  match consideredDict info with
  | [] => none
  | p0 :: _ =>
    chooseFromFormats
      (lookupTracks (consideredDict info) (selectLanguage (consideredDict info) p0.1))
      (selectLanguage (consideredDict info) p0.1)

/-- A json3 caption segment: `{'utf8': ...}` with the key possibly
missing. -/
structure Json3Seg where
  utf8 : Option String
deriving DecidableEq

/-- A json3 caption event: `{'segs': [...]}` with the key possibly
missing. -/
structure Json3Event where
  segs : Option (List Json3Seg)
deriving DecidableEq

/-- A parsed json3 payload: `json.loads(content)` with
`json_data.get('events', [])`. -/
structure Json3 where
  events : List Json3Event
deriving DecidableEq

/-- Collaborator responses consumed by `SubtitleExtractor.extract`:
`extractOutcome` is the result of `ydl.extract_info` (`none` means the
call raised, which the outer handler turns into `None`; `some none` means
it returned a falsy info); `download` is the body `requests.get` returns
for a caption url (`none` = request exception); `parseJson3` is the
result of `json.loads` on a payload (`none` = it raised, caught by
`_parse_subtitle`); `savePath` is what `_save_subtitle` returns. -/
structure SubEnv where
  extractOutcome : Option (Option SubInfo)
  download : String → Option String
  parseJson3 : String → Option Json3
  savePath : Option String

/-- `SubtitleExtractor._parse_text_subtitle`: drop timing/metadata lines,
join the rest, fail on an empty result. -/
def pyParseTextSubtitle (content : String) : Option String :=
  let lines := splitNl content.data
  let body := lines.foldl
    (fun acc line =>
      if containsSub "-->".data line || pyIsDigitStr (stripChars line)
          || (stripChars line).isEmpty || containsSub "WEBVTT".data line
      then acc
      else acc ++ stripChars line ++ [' '])
    []
  let t := stripChars body
  if t.isEmpty then none else some (String.mk t)

/-- `SubtitleExtractor._parse_json_subtitle`: concatenate the `utf8`
segments, fail on an empty result. -/
def pyParseJsonSubtitle (j : Json3) : Option String :=
  let body := j.events.foldl
    (fun acc ev =>
      match ev.segs with
      | none => acc
      | some segs =>
          segs.foldl
            (fun acc2 sg =>
              match sg.utf8 with
              | none => acc2
              | some t => acc2 ++ t.data ++ [' '])
            acc)
    []
  let t := stripChars body
  if t.isEmpty then none else some (String.mk t)

/-- `SubtitleExtractor._parse_subtitle`: dispatch on the format; an
exception inside (e.g. `json.loads`) yields `None`. -/
def pyParseSubtitle (env : SubEnv) (content : String) (fmtType : String) :
    Option String :=
  if content = "" then none
  else if fmtType = "json3" then
    match env.parseJson3 content with
    | none => none
    | some j => pyParseJsonSubtitle j
  else pyParseTextSubtitle content

/-- The dict `SubtitleExtractor.extract` returns on success. -/
structure SubtitleResult where
  text : String
  language : String
  fmt : String
  subtitle_file : Option String
  video_url : String

/-- `SubtitleExtractor.extract`: reject blank urls; bail out to `None` on
a raised or falsy info, on a video with no caption tracks at all, and on
every downstream failure; otherwise return the parsed text with its
language and format. -/
def SubtitleExtractor.extract (env : SubEnv) (url : String) : Option SubtitleResult :=
  if url = "" || pyStrip url = "" then none
  else
    match env.extractOutcome with
    | none => none
    | some none => none
    | some (some info) =>
      if info.subtitles.isEmpty && info.automatic_captions.isEmpty then none
      else
        match pyFindBestSubtitle info with
        | none => none
        | some best =>
          match env.download best.url with
          | none => none
          | some content =>
            if content = "" then none
            else
              match pyParseSubtitle env content best.fmt with
              | none => none
              | some text =>
                if text = "" then none
                else some { text := text, language := best.language,
                            fmt := best.fmt, subtitle_file := env.savePath,
                            video_url := url }

theorem fallbackFormat_language {formats : List SubFormat} {lang : String}
    {b : BestSubtitle} (h : fallbackFormat formats lang = some b) :
    b.language = lang := by
  unfold fallbackFormat at h
  split at h
  · cases h
  · split at h
    · cases h; rfl
    · cases h

theorem chooseFromFormats_language {formats : List SubFormat} {lang : String}
    {b : BestSubtitle} (h : chooseFromFormats formats lang = some b) :
    b.language = lang := by
  unfold chooseFromFormats at h
  split at h
  · split at h
    · cases h; rfl
    · exact fallbackFormat_language h
  · exact fallbackFormat_language h

/-- Claim C5 (amended): the strategy examines only one caption
dictionary — the manual subtitles when any exist, otherwise the automatic
captions.  Whenever some preferred language has at least one track in
that examined dictionary, the selected language is in the preference
list; and when no preferred language has a track there, the selection
falls back to the examined dictionary's first language.  (The claim as
stated, quantifying over manual and automatic tracks together, fails:
preferred automatic captions are invisible once any manual track
exists.) -/
theorem C5_language_preference_on_considered_dict (info : SubInfo)
    (best : BestSubtitle) (hbest : pyFindBestSubtitle info = some best) :
    ((∃ lang ∈ SUPPORTED_LANGUAGES, lookupTracks (consideredDict info) lang ≠ []) →
       best.language ∈ SUPPORTED_LANGUAGES) ∧
    ((∀ lang ∈ SUPPORTED_LANGUAGES, lookupTracks (consideredDict info) lang = []) →
       (consideredDict info).head?.map Prod.fst = some best.language) := by
  unfold pyFindBestSubtitle at hbest
  cases hd : consideredDict info with
  | nil => rw [hd] at hbest; cases hbest
  | cons p0 rest =>
    rw [hd] at hbest
    have hlang := chooseFromFormats_language hbest
    constructor
    · rintro ⟨lang, hmem, htrk⟩
      have hsome : (SUPPORTED_LANGUAGES.find?
          (fun l => !(lookupTracks (p0 :: rest) l).isEmpty)).isSome := by
        rw [List.find?_isSome]
        exact ⟨lang, hmem, by simpa [List.isEmpty_iff] using htrk⟩
      obtain ⟨l, hl⟩ := Option.isSome_iff_exists.mp hsome
      rw [hlang]
      unfold selectLanguage
      rw [hl]
      exact List.mem_of_find?_eq_some hl
    · intro hall
      have hnone : SUPPORTED_LANGUAGES.find?
          (fun l => !(lookupTracks (p0 :: rest) l).isEmpty) = none := by
        rw [List.find?_eq_none]
        intro x hx
        simp [hall x hx]
      rw [hlang]
      unfold selectLanguage
      rw [hnone]
      rfl

/-- A vtt caption track with the given url. -/
def trackVtt (u : String) : SubFormat := { ext := some "vtt", url := some u }

/-- Provider info with manual tracks only in French and automatic tracks
in a preferred language. -/
def infoManualFrAutoZh : SubInfo :=
  { subtitles := [("fr", [trackVtt "https://captions.example/fr.vtt"])],
    automatic_captions := [("zh-Hans", [trackVtt "https://captions.example/zh.vtt"])] }

/-- Claim C5 counterexample: with manual tracks only in "fr" and
automatic tracks in the preferred "zh-Hans", `_find_best_subtitle`
selects "fr" — a language outside the preference list — although a
preferred language does have a track among the available (manual and
automatic) tracks, falsifying the claim as stated. -/
theorem C5_counterexample_automatic_track_ignored :
    (pyFindBestSubtitle infoManualFrAutoZh).map (fun b => b.language) = some "fr" ∧
    "fr" ∉ SUPPORTED_LANGUAGES ∧
    "zh-Hans" ∈ SUPPORTED_LANGUAGES ∧
    lookupTracks infoManualFrAutoZh.automatic_captions "zh-Hans" ≠ [] := by
  refine ⟨by decide, by decide, by decide, by decide⟩

/-- Provider info with a manual track in a preferred language. -/
def infoZhManual : SubInfo :=
  { subtitles := [("zh", [trackVtt "https://captions.example/zh.vtt"])],
    automatic_captions := [] }

/-- Witness for C5 (amended) at concrete provider info: the selected
language is the preferred "zh". -/
theorem C5_witness_preferred_language_selected :
    ({ url := "https://captions.example/zh.vtt", language := "zh",
       fmt := "vtt" } : BestSubtitle).language ∈ SUPPORTED_LANGUAGES :=
  (C5_language_preference_on_considered_dict infoZhManual _ (by decide)).1
    ⟨"zh", by decide, by decide⟩

/-- Claim C4: for provider info with zero caption tracks (neither manual
subtitles nor automatic captions), `SubtitleExtractor.extract` returns
`None`; the embedding is a total function on all collaborator responses,
matching the source's catch-all handler, so no error escapes. -/
theorem C4_extract_none_without_tracks (env : SubEnv) (url : String)
    (info : SubInfo) (hinfo : env.extractOutcome = some (some info))
    (h1 : info.subtitles = []) (h2 : info.automatic_captions = []) :
    SubtitleExtractor.extract env url = none := by
  unfold SubtitleExtractor.extract
  rw [hinfo]
  simp [h1, h2]

/-- A concrete extractor environment for a video without captions. -/
def subEnvNoTracks : SubEnv :=
  { extractOutcome := some (some { subtitles := [], automatic_captions := [] }),
    download := fun _ => none, parseJson3 := fun _ => none, savePath := none }

/-- Witness for C4 at a concrete environment and url. -/
theorem C4_witness_no_tracks :
    SubtitleExtractor.extract subEnvNoTracks
      "https://www.youtube.com/watch?v=jNQXAC9IVRw" = none :=
  C4_extract_none_without_tracks subEnvNoTracks _ _ rfl rfl rfl

/-! ## Transcription (`audioprocess/core/transcription.py`) -/

/-- One entry of the task output's `results` list (optional keys). -/
structure TaskEntry where
  transcription_url : Option String
  subtask_status : Option String
  code : Option String
  message : Option String

/-- The `output` of a DashScope transcription response; `results := none`
models a missing `results` key. -/
structure TaskOutput where
  task_status : Option String
  results : Option (List TaskEntry)
  code : Option String
  message : Option String

/-- A DashScope `Transcription.wait` response. -/
structure AsrResponse where
  status_code : Nat
  message : String
  output : TaskOutput

/-- One transcript of the downloaded transcription JSON: `{'text': ...}`.
`none` models a missing key or a null value; a missing key raises
KeyError, which the surrounding handler turns into `None`, so both cases
yield `none` here. -/
structure TransEntry where
  text : Option String

/-- The downloaded transcription JSON; `transcripts := none` models a
payload without the `transcripts` key. -/
structure TransJson where
  transcripts : Option (List TransEntry)

/-- Collaborator responses consumed by `AudioTranscriber.transcribe`:
`asrCall` is the composite result of `Transcription.async_call` plus
`Transcription.wait` (an error value means one of them raised, caught by
the catch-all handler); `downloadJson` is `_download_json` on a url
(`none` = request or JSON-parse failure); `savedFile` is what
`_save_transcription_result` returns. -/
structure TransEnv where
  asrCall : Except String AsrResponse
  downloadJson : String → Option TransJson
  savedFile : Option String

/-- The result dict of `transcribe`, with the optional keys the code
sets. -/
structure TransResult where
  full_text : Option String
  source_url : Option String
  saved_file : Option String
  error : Option String

/-- An error-only result dict `{'error': m}`. -/
def TransResult.mkError (m : String) : TransResult :=
  { full_text := none, source_url := none, saved_file := none, error := some m }

/-- `AudioTranscriber._extract_text_from_transcription`. -/
def extractTextFromTranscription (j : Option TransJson) : Option String :=
  match j with
  | none => none
  | some jd =>
    match jd.transcripts with
    | none => none
    | some [] => none
    | some (e :: _) => e.text

/-- `AudioTranscriber._process_transcription_result`: dispatch on
`task_status`, extract the first transcript's text on success (empty and
missing text both fail), surface the provider's code and message on
failure, and report unknown statuses as errors. -/
def processTranscriptionResult (env : TransEnv) (out : TaskOutput)
    (fileUrl : String) : TransResult :=
  if out.task_status = some "SUCCEEDED" then
    match out.results with
    | some (r :: _) =>
      match r.transcription_url with
      | some turl =>
        if turl = "" then TransResult.mkError "转录结果中找不到 transcription_url"
        else
          match extractTextFromTranscription (env.downloadJson turl) with
          | some text =>
            if text = "" then TransResult.mkError "无法从转录JSON中提取文本"
            else { full_text := some text, source_url := some fileUrl,
                   saved_file := env.savedFile, error := none }
          | none => TransResult.mkError "无法从转录JSON中提取文本"
      | none => TransResult.mkError "转录结果中找不到 transcription_url"
    | some [] => TransResult.mkError "转录结果中找不到 results 字段"
    | none => TransResult.mkError "转录结果中找不到 results 字段"
  else if out.task_status = some "FAILED" then
    let errCode := out.code.getD "未知错误代码"
    let errMsg := out.message.getD "未知错误"
    match out.results with
    | some rs =>
      match rs.find? (fun r => r.subtask_status == some "FAILED") with
      | some r =>
        TransResult.mkError ("转录失败: " ++ r.code.getD "未知错误代码"
          ++ " - " ++ r.message.getD "未知错误")
      | none => TransResult.mkError ("转录任务失败: " ++ errCode ++ " - " ++ errMsg)
    | none => TransResult.mkError ("转录任务失败: " ++ errCode ++ " - " ++ errMsg)
  else
    TransResult.mkError ("未知的任务状态: "
      ++ (match out.task_status with | some s => s | none => "None"))

/-- `AudioTranscriber.transcribe` / the module's `transcribe_audio`
helper: any exception in the body becomes an error dict; non-OK wait
responses become an error dict; an OK response is processed. -/
def transcribe_audio (env : TransEnv) (fileUrl : String) : TransResult :=
  match env.asrCall with
  | Except.error msg => TransResult.mkError ("转录处理错误: " ++ msg)
  | Except.ok resp =>
    if resp.status_code = 200 then
      processTranscriptionResult env resp.output fileUrl
    else
      TransResult.mkError ("转录请求失败: 状态码 "
        ++ toString resp.status_code ++ " - " ++ resp.message)

theorem transcribe_error_or_text (env : TransEnv) (fileUrl : String) :
    ((transcribe_audio env fileUrl).error.isSome ∧
       (transcribe_audio env fileUrl).full_text = none) ∨
    (∃ s, (transcribe_audio env fileUrl).full_text = some s ∧ s ≠ "" ∧
       (transcribe_audio env fileUrl).error = none) := by
  unfold transcribe_audio processTranscriptionResult
  repeat' split
  all_goals first
    | (left; exact ⟨rfl, rfl⟩)
    | (right; refine ⟨_, rfl, ?_, rfl⟩; assumption)

/-- Claim C10: `transcribe_audio` is a total function of the collaborator
responses (the source wraps its whole body in a catch-all handler, so no
exception escapes), and its result carries exactly one of an `error` key
with a message, or a `full_text` key with a non-empty transcript — never
both. -/
theorem C10_transcribe_exclusive_error_or_text (env : TransEnv) (fileUrl : String) :
    ((∃ m, (transcribe_audio env fileUrl).error = some m) ∧
       (transcribe_audio env fileUrl).full_text = none) ∨
    ((∃ s, (transcribe_audio env fileUrl).full_text = some s ∧ s ≠ "") ∧
       (transcribe_audio env fileUrl).error = none) := by
  rcases transcribe_error_or_text env fileUrl with ⟨h1, h2⟩ | ⟨s, h1, h2, h3⟩
  · exact Or.inl ⟨Option.isSome_iff_exists.mp h1, h2⟩
  · exact Or.inr ⟨⟨s, h1, h2⟩, h3⟩

/-! ## Audio download (`audioprocess/core/youtube_downloader.py`) -/

/-- The fixed fallback reference hardcoded in `_try_fallback_download`. -/
def fallbackPublicUrl : String := "https://www.youtube.com/watch?v=jNQXAC9IVRw"

/-- Outcome of one `ydl.extract_info(url, download=True)` call: it
raised, returned a falsy info, or returned info whose prepared filename
does or does not exist on disk. -/
inductive ExtractOutcome where
  | raises
  | noInfo
  | ok (filename : String) (onDisk : Bool)
deriving DecidableEq

/-- Collaborator behaviour for the downloader: the outcome of
`extract_info` per url. -/
structure DlEnv where
  extractInfo : String → ExtractOutcome

/-- `YouTubeDownloader._try_fallback_download`: download the fixed public
video; on any failure return `None`. -/
def tryFallbackDownload (env : DlEnv) : Option String :=
  match env.extractInfo fallbackPublicUrl with
  | .raises => none
  | .noInfo => none
  | .ok f onDisk => if onDisk then some f else none

/-- `YouTubeDownloader.download`: reject blank urls; try the requested
url and return its file; only when `extract_info` raises, attempt exactly
one fallback download of the fixed public video and return that file as
this call's result. -/
def YouTubeDownloader.download (env : DlEnv) (url : String) : Option String :=
  if url = "" || pyStrip url = "" then none
  else
    match env.extractInfo url with
    | .raises => tryFallbackDownload env
    | .noInfo => none
    | .ok f onDisk => if onDisk then some f else none

/-! ## Pipeline (`audioprocess/main.py`, `process_youtube_video`) -/

/-- Outbound collaborator calls `process_youtube_video` makes, in order.
`ossDelete` is the remote-object deletion the repository implements as
`delete_file_from_oss` (defined and called only in the legacy top-level
`main.py`, not here). -/
inductive Effect where
  | subtitleExtract
  | audioDownload
  | ossUpload
  | asrTranscribe
  | ossDelete
  | summarize
  | saveResult
deriving DecidableEq

/-- Collaborator behaviour for one `process_youtube_video` run:
`uploadResult` is what `upload_file_to_oss` returns (signed url or None);
`summarizeResult` is what `summarize_text` returns (a summary, an error
string starting with the failure marker, or None — the function never
raises, its body being wrapped in catch-all handlers);
`saveSummaryFile` is what `save_summary_result` returns. -/
structure PipeEnv where
  sub : SubEnv
  dl : DlEnv
  uploadResult : Option String
  trans : TransEnv
  summarizeResult : Option String
  saveSummaryFile : Option String

/-- The result dict of `process_youtube_video`, with the optional keys
the code sets. -/
structure POutcome where
  success : Bool
  text : Option String
  summary : Option String
  summary_error : Option String
  error : Option String
  subtitle_extracted : Bool
  subtitle_file : Option String
  language : Option String
  audio_file : Option String
  oss_url : Option String
  transcription_file : Option String
  summary_file : Option String

/-- `result = {'success': False}`. -/
def POutcome.base : POutcome :=
  { success := false, text := none, summary := none, summary_error := none,
    error := none, subtitle_extracted := false, subtitle_file := none,
    language := none, audio_file := none, oss_url := none,
    transcription_file := none, summary_file := none }

/-- The success test the pipeline applies to a summary:
`summary and not summary.startswith("摘要生成失败")`. -/
def summaryOk (s : Option String) : Bool :=
  match s with
  | none => false
  | some t => !(t == "") && !(startsList "摘要生成失败".data t.data)

/-- The summarization block of `process_youtube_video`, shared verbatim
by the caption and the transcription paths: on a good summary record it
(and the saved file, if saving worked); otherwise record
`summary or "未能生成摘要"` under `summary_error`. -/
def applySummaryStep (env : PipeEnv) (r : POutcome) : POutcome × List Effect :=
  if summaryOk env.summarizeResult then
    let r1 := { r with summary := env.summarizeResult }
    match env.saveSummaryFile with
    | some f => ({ r1 with summary_file := some f }, [Effect.summarize, Effect.saveResult])
    | none => (r1, [Effect.summarize, Effect.saveResult])
  else
    ({ r with summary_error := some (match env.summarizeResult with
        | some t => if t == "" then "未能生成摘要" else t
        | none => "未能生成摘要") }, [Effect.summarize])

/-- The audio branch of `process_youtube_video` (steps 3-6): download,
upload, transcribe, then summarize unless skipped.  Instrumented with the
trace of collaborator calls. -/
def processAudioPath (env : PipeEnv) (url : String) (skip_summary : Bool)
    (r0 : POutcome) (tr0 : List Effect) : POutcome × List Effect :=
  let dlResult := YouTubeDownloader.download env.dl url
  let tr1 := tr0 ++ [Effect.audioDownload]
  if !optTruthy dlResult then
    ({ r0 with error := some "音频下载失败" }, tr1)
  else
    let r1 := { r0 with audio_file := some (dlResult.getD "") }
    let tr2 := tr1 ++ [Effect.ossUpload]
    if !optTruthy env.uploadResult then
      ({ r1 with error := some "文件上传到 OSS 失败" }, tr2)
    else
      let ossUrl := env.uploadResult.getD ""
      let r2 := { r1 with oss_url := some ossUrl }
      let t := transcribe_audio env.trans ossUrl
      let tr3 := tr2 ++ [Effect.asrTranscribe]
      match t.error with
      | some e => ({ r2 with error := some ("音频转录失败: " ++ e) }, tr3)
      | none =>
        let r3 := { r2 with
                    text := t.full_text
                    transcription_file := t.saved_file }
        if skip_summary then ({ r3 with success := true }, tr3)
        else
          let step := applySummaryStep env r3
          ({ step.1 with success := true }, tr3 ++ step.2)

/-- `main.process_youtube_video`: try captions first unless forced to the
audio path; a caption hit is summarized (unless skipped) and returned
with success; any caption miss or failure falls through to the audio
path. -/
def process_youtube_video (env : PipeEnv) (url : String)
    (force_audio skip_summary : Bool) : POutcome × List Effect :=
  if force_audio then processAudioPath env url skip_summary POutcome.base []
  else
    match SubtitleExtractor.extract env.sub url with
    | some sr =>
      let r1 := { POutcome.base with
                  subtitle_extracted := true
                  text := some sr.text
                  subtitle_file := sr.subtitle_file
                  language := some sr.language }
      if skip_summary then
        ({ r1 with success := true }, [Effect.subtitleExtract])
      else
        let step := applySummaryStep env r1
        ({ step.1 with success := true }, Effect.subtitleExtract :: step.2)
    | none =>
      processAudioPath env url skip_summary POutcome.base [Effect.subtitleExtract]

theorem extract_text_ne_empty {env : SubEnv} {url : String}
    {sr : SubtitleResult} (h : SubtitleExtractor.extract env url = some sr) :
    sr.text ≠ "" := by
  unfold SubtitleExtractor.extract at h
  repeat' split at h
  all_goals cases h
  all_goals assumption

theorem applySummaryStep_fst_text (env : PipeEnv) (r : POutcome) :
    (applySummaryStep env r).1.text = r.text := by
  unfold applySummaryStep
  repeat' split
  all_goals rfl

theorem applySummaryStep_fst_success (env : PipeEnv) (r : POutcome) :
    (applySummaryStep env r).1.success = r.success := by
  unfold applySummaryStep
  repeat' split
  all_goals rfl

theorem applySummaryStep_failed (env : PipeEnv) (r : POutcome)
    (h : summaryOk env.summarizeResult = false) :
    (applySummaryStep env r).1.summary = r.summary ∧
    ((applySummaryStep env r).1.summary_error).isSome := by
  unfold applySummaryStep
  rw [h]
  simp

theorem processAudioPath_spec (env : PipeEnv) (url : String) (ss : Bool)
    (r0 : POutcome) (tr0 : List Effect)
    (hr0s : r0.success = false) (hr0t : r0.text = none)
    (hr0sum : r0.summary = none) :
    ((processAudioPath env url ss r0 tr0).1.success = true →
       ∃ t, (processAudioPath env url ss r0 tr0).1.text = some t ∧ t ≠ "") ∧
    (((processAudioPath env url ss r0 tr0).1.text).isSome →
       (processAudioPath env url ss r0 tr0).1.success = true ∧
       (summaryOk env.summarizeResult = false → ss = false →
          (processAudioPath env url ss r0 tr0).1.summary = none ∧
          ((processAudioPath env url ss r0 tr0).1.summary_error).isSome)) := by
  by_cases h1 : optTruthy (YouTubeDownloader.download env.dl url)
  · by_cases h2 : optTruthy env.uploadResult
    · cases herr : (transcribe_audio env.trans (env.uploadResult.getD "")).error with
      | some e =>
        simp only [processAudioPath, h1, h2, herr, Bool.not_true,
          Bool.false_eq_true, if_false]
        exact ⟨fun hs => absurd hs (by simp [hr0s]), fun ht => absurd ht (by simp [hr0t])⟩
      | none =>
        rcases transcribe_error_or_text env.trans (env.uploadResult.getD "")
          with ⟨hes, _⟩ | ⟨s, hft, hsne, _⟩
        · rw [herr] at hes; cases hes
        · cases hss : ss
          · simp only [processAudioPath, h1, h2, herr, hss, Bool.not_true,
              Bool.false_eq_true, if_false]
            constructor
            · intro _
              exact ⟨s, by rw [applySummaryStep_fst_text]; exact hft, hsne⟩
            · intro _
              refine ⟨by trivial, fun hfail _ => ?_⟩
              have hstep := fun r => applySummaryStep_failed env r hfail
              exact ⟨(hstep _).1.trans hr0sum, (hstep _).2⟩
          · simp only [processAudioPath, h1, h2, herr, hss, Bool.not_true,
              Bool.false_eq_true, if_false]
            refine ⟨fun _ => ⟨s, hft, hsne⟩, fun _ => ⟨by trivial, ?_⟩⟩
            intro _ hcontra
            cases hcontra
    · simp only [processAudioPath, h1, h2, Bool.not_true, Bool.not_false,
        Bool.false_eq_true, if_false, if_true]
      exact ⟨fun hs => absurd hs (by simp [hr0s]), fun ht => absurd ht (by simp [hr0t])⟩
  · simp only [processAudioPath, h1, Bool.not_false, if_true]
    exact ⟨fun hs => absurd hs (by simp [hr0s]), fun ht => absurd ht (by simp [hr0t])⟩

/-- Claim C2: whenever `process_youtube_video` reports success, the
result carries a non-empty `text`: the caption text passed the
extractor's emptiness guards, and the transcription path's `full_text`
passed the transcriber's truthiness guard. -/
theorem C2_success_has_nonempty_text (env : PipeEnv) (url : String)
    (fa ss : Bool)
    (h : (process_youtube_video env url fa ss).1.success = true) :
    ∃ t, (process_youtube_video env url fa ss).1.text = some t ∧ t ≠ "" := by
  unfold process_youtube_video at h ⊢
  cases fa with
  | true =>
    exact (processAudioPath_spec env url ss POutcome.base [] rfl rfl rfl).1 h
  | false =>
    simp only [Bool.false_eq_true, if_false] at h ⊢
    cases hsub : SubtitleExtractor.extract env.sub url with
    | none =>
      rw [hsub] at h
      exact (processAudioPath_spec env url ss POutcome.base _ rfl rfl rfl).1 h
    | some sr =>
      rw [hsub] at h
      cases hss : ss with
      | true =>
        refine ⟨sr.text, ?_, extract_text_ne_empty hsub⟩
        simp
      | false =>
        refine ⟨sr.text, ?_, extract_text_ne_empty hsub⟩
        simp [applySummaryStep_fst_text]

/-- Claim C3: whenever text acquisition succeeded (the outcome carries a
`text` key, which only acquisition success sets), the run reports
success=true regardless of what the summarizer returned; and a failed
summary — `summarize_text` returning None, an empty string, or a string
starting with the failure marker — with summarization not skipped is
recorded under `summary_error`, with no `summary` key set. -/
theorem C3_summary_failure_keeps_success (env : PipeEnv) (url : String)
    (fa ss : Bool)
    (hacq : ((process_youtube_video env url fa ss).1.text).isSome = true) :
    (process_youtube_video env url fa ss).1.success = true ∧
    (summaryOk env.summarizeResult = false → ss = false →
       (process_youtube_video env url fa ss).1.summary = none ∧
       ((process_youtube_video env url fa ss).1.summary_error).isSome = true) := by
  unfold process_youtube_video at hacq ⊢
  cases fa with
  | true =>
    exact (processAudioPath_spec env url ss POutcome.base [] rfl rfl rfl).2 hacq
  | false =>
    simp only [Bool.false_eq_true, if_false] at hacq ⊢
    cases hsub : SubtitleExtractor.extract env.sub url with
    | none =>
      rw [hsub] at hacq
      exact (processAudioPath_spec env url ss POutcome.base _ rfl rfl rfl).2 hacq
    | some sr =>
      rw [hsub] at hacq
      cases hss : ss with
      | true =>
        exact ⟨by trivial, fun _ hcontra => by cases hcontra⟩
      | false =>
        refine ⟨by trivial, fun hfail _ => ?_⟩
        have hstep := fun r => applySummaryStep_failed env r hfail
        exact ⟨(hstep _).1.trans rfl, (hstep _).2⟩

/-- A task output for a succeeded ASR job with one result entry. -/
def asrOutputOk : TaskOutput :=
  { task_status := some "SUCCEEDED"
    results := some [{ transcription_url := some "https://dash.example/t.json"
                       subtask_status := some "SUCCEEDED"
                       code := none
                       message := none }]
    code := none
    message := none }

/-- A transcription environment whose ASR job succeeds with a non-empty
transcript. -/
def transEnvOk : TransEnv :=
  { asrCall := Except.ok { status_code := 200, message := "", output := asrOutputOk }
    downloadJson := fun _ => some { transcripts := some [{ text := some "你好，世界。" }] }
    savedFile := some "results/transcription_1.txt" }

/-- A download environment where every reference downloads fine. -/
def dlEnvOk : DlEnv :=
  { extractInfo := fun _ => ExtractOutcome.ok "downloads/video.m4a" true }

/-- A pipeline environment for a fully successful media-path run. -/
def pipeEnvOk : PipeEnv :=
  { sub := subEnvNoTracks
    dl := dlEnvOk
    uploadResult := some "https://bucket.oss.example/audio_x?sig=1"
    trans := transEnvOk
    summarizeResult := some "这是一个摘要。"
    saveSummaryFile := some "results/summary_1.txt" }

/-- Witness for C2 at a concrete successful run. -/
theorem C2_witness_concrete_success :
    ∃ t, (process_youtube_video pipeEnvOk "https://www.youtube.com/watch?v=abc"
        true false).1.text = some t ∧ t ≠ "" :=
  C2_success_has_nonempty_text pipeEnvOk "https://www.youtube.com/watch?v=abc"
    true false (by decide)

/-- A pipeline environment whose summarizer fails with the failure
marker. -/
def pipeEnvFailSummary : PipeEnv :=
  { pipeEnvOk with summarizeResult := some "摘要生成失败: API调用错误: timeout" }

/-- Witness for C3 at a concrete run with a failing summarizer. -/
theorem C3_witness_concrete_failed_summary :
    (process_youtube_video pipeEnvFailSummary "https://www.youtube.com/watch?v=abc"
        true false).1.success = true ∧
    (process_youtube_video pipeEnvFailSummary "https://www.youtube.com/watch?v=abc"
        true false).1.summary = none ∧
    ((process_youtube_video pipeEnvFailSummary "https://www.youtube.com/watch?v=abc"
        true false).1.summary_error).isSome = true := by
  have h := C3_summary_failure_keeps_success pipeEnvFailSummary
    "https://www.youtube.com/watch?v=abc" true false (by decide)
  exact ⟨h.1, (h.2 (by decide) rfl).1, (h.2 (by decide) rfl).2⟩

theorem applySummaryStep_snd_count (env : PipeEnv) (r : POutcome) :
    (applySummaryStep env r).2.count Effect.ossDelete = 0 := by
  unfold applySummaryStep
  repeat' split
  all_goals rfl

theorem processAudioPath_count_ossDelete (env : PipeEnv) (url : String)
    (ss : Bool) (r0 : POutcome) (tr0 : List Effect) :
    (processAudioPath env url ss r0 tr0).2.count Effect.ossDelete
      = tr0.count Effect.ossDelete := by
  by_cases h1 : optTruthy (YouTubeDownloader.download env.dl url)
  · by_cases h2 : optTruthy env.uploadResult
    · cases herr : (transcribe_audio env.trans (env.uploadResult.getD "")).error with
      | some e =>
        simp [processAudioPath, h1, h2, herr, List.count_append,
          List.count_cons, List.count_nil, beq_iff_eq]
      | none =>
        cases hss : ss with
        | true =>
          simp [processAudioPath, h1, h2, herr, List.count_append,
            List.count_cons, List.count_nil, beq_iff_eq]
        | false =>
          simp [processAudioPath, h1, h2, herr, List.count_append,
            List.count_cons, List.count_nil, beq_iff_eq,
            applySummaryStep_snd_count]
    · simp [processAudioPath, h1, h2, List.count_append, List.count_cons,
        List.count_nil, beq_iff_eq]
  · simp [processAudioPath, h1, List.count_append, List.count_cons,
      List.count_nil, beq_iff_eq]

/-- Claim C6 (the pipeline as implemented): no run of
`process_youtube_video` — any url, any flags, any collaborator
behaviour — ever performs a remote-object delete: its trace of
collaborator calls contains no `ossDelete`.  The cleanup the claim
describes exists only in the legacy top-level `main.py`
(`delete_file_from_oss`), which this packaged pipeline never calls; its
`OssUploader.upload` does not even return the object name needed to
delete. -/
theorem C6_pipeline_never_deletes_remote_object (env : PipeEnv) (url : String)
    (fa ss : Bool) :
    (process_youtube_video env url fa ss).2.count Effect.ossDelete = 0 := by
  cases fa with
  | true =>
    have h := processAudioPath_count_ossDelete env url ss POutcome.base []
    simpa using h
  | false =>
    simp only [process_youtube_video, Bool.false_eq_true, if_false]
    cases hsub : SubtitleExtractor.extract env.sub url with
    | none =>
      have h := processAudioPath_count_ossDelete env url ss POutcome.base
        [Effect.subtitleExtract]
      simpa [List.count_cons, List.count_nil, beq_iff_eq] using h
    | some sr =>
      cases hss : ss with
      | true => simp [List.count_cons, List.count_nil, beq_iff_eq]
      | false =>
        simp [List.count_cons, List.count_nil, beq_iff_eq,
          applySummaryStep_snd_count]

/-- Failing input for C6, evaluated: a fully successful media-path run
uploads and transcribes but the trace holds no delete of the remote
object. -/
theorem C6_failing_input_successful_run_no_delete :
    (process_youtube_video pipeEnvOk "https://www.youtube.com/watch?v=abc"
        true false).1.success = true ∧
    Effect.ossUpload ∈ (process_youtube_video pipeEnvOk
        "https://www.youtube.com/watch?v=abc" true false).2 ∧
    Effect.asrTranscribe ∈ (process_youtube_video pipeEnvOk
        "https://www.youtube.com/watch?v=abc" true false).2 ∧
    Effect.ossDelete ∉ (process_youtube_video pipeEnvOk
        "https://www.youtube.com/watch?v=abc" true false).2 := by
  refine ⟨by decide, by decide, by decide, by decide⟩

/-- A download environment where the requested reference raises and the
fixed public fallback succeeds. -/
def dlEnvPrimaryRaises : DlEnv :=
  { extractInfo := fun u =>
      if u = fallbackPublicUrl then ExtractOutcome.ok "downloads/Me at the zoo.webm" true
      else ExtractOutcome.raises }

/-- A pipeline environment built on that download behaviour. -/
def pipeEnvMasked : PipeEnv := { pipeEnvOk with dl := dlEnvPrimaryRaises }

/-- Claim C7, the code evaluated at the failing input: when downloading
the requested reference raises, `download` makes one fallback attempt at
the fixed public video and returns that file as an ordinary success;
fed through the pipeline, the run reports success=true with no error for
the original url — the fallback masks the real failure as success. -/
theorem C7_fallback_masks_failure_as_success :
    dlEnvPrimaryRaises.extractInfo "https://www.youtube.com/watch?v=privateXYZ"
      = ExtractOutcome.raises ∧
    YouTubeDownloader.download dlEnvPrimaryRaises
      "https://www.youtube.com/watch?v=privateXYZ"
      = some "downloads/Me at the zoo.webm" ∧
    (process_youtube_video pipeEnvMasked
        "https://www.youtube.com/watch?v=privateXYZ" true false).1.success = true ∧
    (process_youtube_video pipeEnvMasked
        "https://www.youtube.com/watch?v=privateXYZ" true false).1.error = none := by
  refine ⟨by decide, by decide, by decide, by decide⟩

/-! ## Object naming (`audioprocess/core/oss_uploader.py`) -/

/-- `os.path.splitext(p)[1]` (posix rules): the extension starts at the
last dot of the basename, unless every character before that dot in the
basename is itself a dot (dotfiles have no extension). -/
def splitextExt (p : String) : String :=
  let base := (p.data.reverse.takeWhile (fun c => !(c == '/'))).reverse
  let r := base.reverse
  let afterDot := r.takeWhile (fun c => !(c == '.'))
  if afterDot.length = r.length then ""
  else
    let pre := (r.drop (afterDot.length + 1)).reverse
    if pre.all (fun c => c == '.') then ""
    else String.mk ('.' :: afterDot.reverse)

/-- `OssUploader._generate_object_name`, with the sampled random token
and the timestamp as explicit inputs: a fixed prefix, the token, the
timestamp, and the lowercased extension of the input path. -/
def generate_object_name (filePath randToken timestamp : String) : String :=
  "audio_" ++ randToken ++ "_" ++ timestamp ++ pyLower (splitextExt filePath)

/-- Claim C9: the generated object name depends on the input file path
only through its lowercased extension — any two paths whose extensions
agree produce identical names for every random token and timestamp, so
no information from the original filename base reaches the remote name;
the name consists of the fixed prefix, the random token, the timestamp
and that extension. -/
theorem C9_object_name_depends_only_on_ext (p1 p2 r t : String)
    (h : pyLower (splitextExt p1) = pyLower (splitextExt p2)) :
    generate_object_name p1 r t = generate_object_name p2 r t := by
  unfold generate_object_name
  rw [h]

/-- Witness for C9 at two concrete paths sharing an extension. -/
theorem C9_witness_same_ext_same_name :
    generate_object_name "downloads/我的私人录音.MP3" "qwertzui" "20250101120000"
      = generate_object_name "a.mp3" "qwertzui" "20250101120000" :=
  C9_object_name_depends_only_on_ext "downloads/我的私人录音.MP3" "a.mp3"
    "qwertzui" "20250101120000" (by decide)

/-! ## Progress reporting (`audioprocess/scripts/telegram_bot.py`,
`LogCollector.collect_logs`) -/

/-- Collector state across loop iterations: accumulated logs, the time
of the last applied update, and the text of the last successfully sent
message. -/
structure CollectorState where
  logs : List String
  lastUpdateTime : Nat
  lastMessageText : String

/-- Initial state of a fresh `LogCollector` (empty logs, zero clock,
empty last message). -/
def CollectorState.init : CollectorState :=
  { logs := [], lastUpdateTime := 0, lastMessageText := "" }

/-- One loop iteration's external input: the log lines drained from the
queue, the current time, whether `edit_message_text` succeeds, and — for
a failing send — whether the failure is the 'Message is not modified'
rejection. -/
structure Tick where
  newLogs : List String
  now : Nat
  sendOk : Bool
  errNotModified : Bool

/-- The rendered status message: header plus the last ten log lines. -/
def renderMessage (logs : List String) : String :=
  "🔄 处理中...\n\n最新日志:\n```\n"
    ++ String.intercalate "\n" (logs.reverse.take 10).reverse ++ "\n```"

/-- One iteration of `collect_logs`: drain the queue; update only if at
least 3s passed with new logs, or at least 10s passed, and some logs
exist; suppress the send when the rendered text equals the last text
successfully sent; on a send failure keep the last-sent text unchanged
and surface the error only when it is not the 'Message is not modified'
rejection.  Returns the new state, the text successfully sent this
iteration (if any), and the surfaced error (if any). -/
def collectStep (st : CollectorState) (i : Tick) :
    CollectorState × Option String × Option String :=
  if ((decide (3 ≤ i.now - st.lastUpdateTime) && !i.newLogs.isEmpty) ||
        decide (10 ≤ i.now - st.lastUpdateTime))
      && !(st.logs ++ i.newLogs).isEmpty then
    if renderMessage (st.logs ++ i.newLogs) ≠ st.lastMessageText then
      if i.sendOk then
        ({ logs := st.logs ++ i.newLogs, lastUpdateTime := i.now,
           lastMessageText := renderMessage (st.logs ++ i.newLogs) },
          some (renderMessage (st.logs ++ i.newLogs)), none)
      else
        ({ st with logs := st.logs ++ i.newLogs }, none,
          if i.errNotModified then none else some "更新消息失败")
    else
      ({ st with logs := st.logs ++ i.newLogs, lastUpdateTime := i.now },
        none, none)
  else
    ({ st with logs := st.logs ++ i.newLogs }, none, none)

/-- Run the collector over a sequence of iterations, accumulating the
successfully sent texts and the surfaced errors in order. -/
def collectRun (st : CollectorState) :
    List Tick → CollectorState × List String × List String
  | [] => (st, [], [])
  | i :: is =>
    let step := collectStep st i
    let rest := collectRun step.1 is
    (rest.1, step.2.1.toList ++ rest.2.1, step.2.2.toList ++ rest.2.2)

theorem collectStep_sent (st : CollectorState) (i : Tick) :
    ((collectStep st i).2.1 = none ∧
       (collectStep st i).1.lastMessageText = st.lastMessageText) ∨
    (∃ t, (collectStep st i).2.1 = some t ∧ t ≠ st.lastMessageText ∧
       (collectStep st i).1.lastMessageText = t) := by
  unfold collectStep
  split_ifs with h1 h2 h3 h4
  all_goals first
    | (right; exact ⟨_, rfl, h2, rfl⟩)
    | (left; exact ⟨rfl, rfl⟩)

theorem collectRun_chain (st : CollectorState) (ticks : List Tick) :
    List.Chain' (fun a b => a ≠ b)
      (st.lastMessageText :: (collectRun st ticks).2.1) := by
  induction ticks generalizing st with
  | nil => simp [collectRun]
  | cons i is ih =>
    rcases collectStep_sent st i with ⟨h1, h2⟩ | ⟨t, h1, hne, h2⟩
    · have := ih (collectStep st i).1
      rw [h2] at this
      simpa [collectRun, h1] using this
    · have := ih (collectStep st i).1
      rw [h2] at this
      simp only [collectRun, h1, Option.toList_some, List.cons_append,
        List.nil_append]
      exact List.chain'_cons.mpr ⟨fun hh => hne hh.symm, this⟩

/-- Claim C8: starting from a fresh collector, no two consecutive
successfully sent messages are identical over any sequence of
iterations — a forward is suppressed whenever the rendered text equals
the last text successfully sent (a failed send leaves that text
unchanged) — and a send rejected with 'Message is not modified' is
swallowed: it surfaces no error. -/
theorem C8_no_consecutive_identical_sends (ticks : List Tick) :
    List.Chain' (fun a b => a ≠ b)
      (collectRun CollectorState.init ticks).2.1 ∧
    (∀ st : CollectorState, ∀ i : Tick, i.sendOk = false →
       i.errNotModified = true → (collectStep st i).2.2 = none) := by
  constructor
  · exact (collectRun_chain CollectorState.init ticks).tail
  · intro st i hok hnm
    unfold collectStep
    split_ifs with h1 h2 h3
    all_goals simp_all

/-- A tick that sends successfully. -/
def tickSendA : Tick :=
  { newLogs := ["下载完成"], now := 5, sendOk := true, errNotModified := false }

/-- A tick whose send is rejected as not modified. -/
def tickRejectB : Tick :=
  { newLogs := [], now := 16, sendOk := false, errNotModified := true }

/-- Witness for C8 on a concrete iteration sequence, including a
swallowed 'Message is not modified' rejection. -/
theorem C8_witness_concrete_run :
    List.Chain' (fun a b => a ≠ b)
      (collectRun CollectorState.init [tickSendA, tickRejectB]).2.1 ∧
    (collectStep CollectorState.init tickRejectB).2.2 = none := by
  have h := C8_no_consecutive_identical_sends [tickSendA, tickRejectB]
  exact ⟨h.1, h.2 CollectorState.init tickRejectB rfl rfl⟩
